import Mathlib

/-!
# gokmod: a shallow embedding of `gokmod.go`

The Go wrapper around libkmod is embedded as Lean functions over an explicit
model of the kernel module subsystem.

* Go strings are Lean `String`s, a Go `error` is its message (`Option Err`,
  `none` being `nil`).
* A Go map is an association list with unique keys; the nil map and the empty
  map are both `[]`.  A Go slice is a `List`; the nil slice is `[]`.
* A libkmod list is a `List`; the empty list is the `NULL` pointer, which holds
  no handle.  A libkmod call that returns a negative error code is the `none`
  result of the modelled call.
* A run either returns or stops on a Go runtime panic; both carry the counters
  of outstanding subsystem handles.
* `Type` and `alias` are reserved words in Lean: the field `Type` of
  `KModInfoParm` is `Type_`, the parameter `alias` of `modinfoAliasDo` is
  `alias_`.
-/

namespace Gokmod

/-! ## Data model (`gokmod.go`, lines 19-44) -/

/-- A Go `error`, identified by its message. -/
abbrev Err := String

/-- The constant `KMOD_FILTER_BUILTIN`. -/
def KMOD_FILTER_BUILTIN : Nat := 0x00002

/-- The struct `KModInfoParm`; its field `Type` is `Type_` here, `Type` being a
reserved word. -/
structure KModInfoParm where
  Desc : String
  Type_ : String
  deriving DecidableEq, Repr

/-- The map type `KModInfoParmMap` (`map[string]*KModInfoParm`). Every pointer
stored by the code is fresh and never nil, so an entry holds the struct. -/
abbrev KModInfoParmMap := List (String × KModInfoParm)

/-- The map type `KModInfoMap` (`map[string][]string`). -/
abbrev KModInfoMap := List (String × List String)

/-- The struct `KModInfo`. -/
structure KModInfo where
  Info : KModInfoMap
  Parm : KModInfoParmMap
  deriving DecidableEq, Repr

/-- The struct `KModList`. -/
structure KModList where
  Name : String
  Size : Int
  UseCount : Int
  Holders : List String
  Info : KModInfo
  deriving DecidableEq, Repr

/-- The zero value `KModInfo{}`. -/
def KModInfo.zero : KModInfo := { Info := [], Parm := [] }

deriving instance DecidableEq for Except

/-! ## Go maps -/

/-- The map read `m[k]`, `none` when the key is absent. -/
def mapGet {V : Type} : List (String × V) → String → Option V
  | [], _ => none
  | (k', v) :: rest, k => if k' = k then some v else mapGet rest k

/-- The map write `m[k] = v`. -/
def mapSet {V : Type} : List (String × V) → String → V → List (String × V)
  | [], k, v => [(k, v)]
  | (k', v') :: rest, k, v =>
    if k' = k then (k, v) :: rest else (k', v') :: mapSet rest k v

/-! ## Go runtime and library -/

/-- The pieces of `strings.Split(s, sep)` for a one-character separator, on the
characters of `s`: the text is cut at every occurrence of the separator. -/
def splitChars (sep : Char) : List Char → List (List Char)
  | [] => [[]]
  | c :: cs =>
    if c = sep then [] :: splitChars sep cs
    else
      match splitChars sep cs with
      | [] => [[c]]
      | p :: ps => (c :: p) :: ps

/-- The call `strings.Split(value, ":")`. -/
def strings_Split_colon (value : String) : List String :=
  (splitChars ':' value.data).map String.mk

/-- The slice index `xs[i]`: a Go runtime panic when `i` is out of range. -/
def goIndex {α : Type} (xs : List α) (i : Nat) : Except String α :=
  match xs.get? i with
  | some x => .ok x
  | none =>
    .error ("runtime error: index out of range [" ++ toString i ++ "] with length "
      ++ toString xs.length)

/-! ## The record loop of `modinfoDo` (lines 87-111) -/

/-- One iteration of the loop of `modinfoDo`, for the record `(key, value)`. The
error case is a runtime panic. -/
def modinfoRecord (ret : KModInfo) (key value : String) : Except String KModInfo :=
  if key = "parm" ∨ key = "parmtype" then do
    let parmkv := strings_Split_colon value
    let parmkvKey ← goIndex parmkv 0
    let parmkvVal ← goIndex parmkv 1
    let ret :=
      if mapGet ret.Parm parmkvKey = none then
        { ret with Parm := mapSet ret.Parm parmkvKey { Desc := "", Type_ := "" } }
      else ret
    let ret :=
      if key = "parm" then
        { ret with Parm := mapSet ret.Parm parmkvKey { Desc := parmkvVal, Type_ := "" } }
      else ret
    let ret :=
      if key = "parmtype" then
        match mapGet ret.Parm parmkvKey with
        | some p => { ret with Parm := mapSet ret.Parm parmkvKey { p with Type_ := parmkvVal } }
        | none => ret
      else ret
    pure ret
  else
    pure { ret with Info := mapSet ret.Info key ((mapGet ret.Info key).getD [] ++ [value]) }

/-- The loop of `modinfoDo` over the info list. -/
def modinfoLoop : List (String × String) → KModInfo → Except String KModInfo
  | [], ret => pure ret
  | (key, value) :: rest, ret =>
    match modinfoRecord ret key value with
    | .ok ret' => modinfoLoop rest ret'
    | .error msg => .error msg

/-! ## The instrumented subsystem -/

/-- Outstanding handles of each kind: acquisitions minus releases. The contexts,
the module handles, the module lists (the holder lists are module lists for
libkmod and go back through the same call) and the info lists. -/
structure Handles where
  ctx : Int
  modules : Int
  lists : Int
  infoLists : Int
  deriving DecidableEq, Repr

/-- How a run ends: it returns a value, or a Go runtime panic stops it. -/
inductive Outcome (α : Type) where
  | returned (val : α) (h : Handles)
  | panicked (msg : String) (h : Handles)
  deriving DecidableEq, Repr

/-- A computation over the handle counters that may panic. -/
def M (α : Type) : Type := Handles → Outcome α

/-- Sequencing: a panic stops the run. -/
def M.bind {α β : Type} (m : M α) (f : α → M β) : M β := fun h =>
  match m h with
  | .returned a h' => f a h'
  | .panicked msg h' => .panicked msg h'

instance : Monad M where
  pure a := fun h => .returned a h
  bind := M.bind

/-- A pure step that may panic, run without touching the handles. -/
def liftExcept {α : Type} (e : Except String α) : M α := fun h =>
  match e with
  | .ok a => .returned a h
  | .error msg => .panicked msg h

/-- What `os.Stat` reports of a file: `Mode().IsRegular()`. -/
structure FileInfo where
  isRegular : Bool
  deriving DecidableEq, Repr

/-- What libkmod reports of one module handle: its name, size and reference
count, the names of the modules of its holder list in list order (the name is
all the code reads of a holder), and the result of `kmod_module_get_info`
(`none` for a negative return, else the key/value records in list order). -/
structure KmodModule where
  name : String
  size : Int
  refcnt : Int
  holders : List String
  info : Option (List (String × String))
  deriving DecidableEq, Repr

/-- The environment of a run: what each libkmod call and `os.Stat` answer. -/
structure Subsystem where
  /-- Whether `kmod_new` yields a context. -/
  kmodNew : Bool
  /-- The answer of `kmod_module_new_from_loaded`, `none` for a negative return. -/
  loaded : Option (List KmodModule)
  /-- The answer of `kmod_module_new_from_lookup`, `none` for a negative return. -/
  lookup : String → Option (List KmodModule)
  /-- The answer of `kmod_module_apply_filter`, `none` for a negative return. -/
  applyFilter : Nat → List KmodModule → Option (List KmodModule)
  /-- The answer of `kmod_module_new_from_path`, `none` for a negative return. -/
  fromPath : String → Option KmodModule
  /-- The file system: the file at a path, if any. -/
  stat : String → Option FileInfo

/-- Count one more list handle, unless the list is the `NULL` list. -/
def Handles.takeList {α : Type} (h : Handles) (l : List α) : Handles :=
  if l.isEmpty then h else { h with lists := h.lists + 1 }

/-- Count one list handle less, unless the list is the `NULL` list. -/
def Handles.dropList {α : Type} (h : Handles) (l : List α) : Handles :=
  if l.isEmpty then h else { h with lists := h.lists - 1 }

/-- The call `kmod_new(nil, nil)`: `true` for a non-nil context. -/
def kmod_new (sub : Subsystem) : M Bool := fun h =>
  if sub.kmodNew then .returned true { h with ctx := h.ctx + 1 } else .returned false h

/-- The call `kmod_unref(ctx)`. -/
def kmod_unref : M Unit := fun h => .returned () { h with ctx := h.ctx - 1 }

/-- The call `kmod_module_new_from_loaded(ctx, &list)`. -/
def kmod_module_new_from_loaded (sub : Subsystem) : M (Option (List KmodModule)) := fun h =>
  match sub.loaded with
  | none => .returned none h
  | some l => .returned (some l) (h.takeList l)

/-- The call `kmod_module_new_from_lookup(ctx, alias, &list)`. -/
def kmod_module_new_from_lookup (sub : Subsystem) (alias_ : String) :
    M (Option (List KmodModule)) := fun h =>
  match sub.lookup alias_ with
  | none => .returned none h
  | some l => .returned (some l) (h.takeList l)

/-- The call `kmod_module_apply_filter(ctx, filter, list, &filtered)`. -/
def kmod_module_apply_filter (sub : Subsystem) (filter : Nat) (list : List KmodModule) :
    M (Option (List KmodModule)) := fun h =>
  match sub.applyFilter filter list with
  | none => .returned none h
  | some l => .returned (some l) (h.takeList l)

/-- The call `kmod_module_new_from_path(ctx, path, &mod)`. -/
def kmod_module_new_from_path (sub : Subsystem) (path : String) : M (Option KmodModule) :=
  fun h =>
    match sub.fromPath path with
    | none => .returned none h
    | some m => .returned (some m) { h with modules := h.modules + 1 }

/-- The call `kmod_module_get_module(entry)`: a new reference to the module of a
list entry. -/
def kmod_module_get_module {α : Type} (entry : α) : M α := fun h =>
  .returned entry { h with modules := h.modules + 1 }

/-- The call `kmod_module_unref(mod)`. -/
def kmod_module_unref {α : Type} (_mod : α) : M Unit := fun h =>
  .returned () { h with modules := h.modules - 1 }

/-- The call `kmod_module_unref_list(list)`. -/
def kmod_module_unref_list {α : Type} (list : List α) : M Unit := fun h =>
  .returned () (h.dropList list)

/-- The call `kmod_module_get_holders(mod)`. -/
def kmod_module_get_holders (mod : KmodModule) : M (List String) := fun h =>
  .returned mod.holders (h.takeList mod.holders)

/-- The call `kmod_module_get_info(mod, &list)`. -/
def kmod_module_get_info (mod : KmodModule) : M (Option (List (String × String))) := fun h =>
  match mod.info with
  | none => .returned none h
  | some l => .returned (some l) (if l.isEmpty then h else { h with infoLists := h.infoLists + 1 })

/-- The call `kmod_module_info_free_list(list)`. -/
def kmod_module_info_free_list (list : List (String × String)) : M Unit := fun h =>
  .returned () (if list.isEmpty then h else { h with infoLists := h.infoLists - 1 })

/-- The call `os.Stat(name)`: the file and a nil error, or nil and an error. -/
def os_Stat (sub : Subsystem) (name : String) : Option FileInfo × Option Err :=
  match sub.stat name with
  | some fi => (some fi, none)
  | none => (none, some ("stat " ++ name ++ ": no such file or directory"))

/-! ## The functions of `gokmod.go` -/

/-- The function `isModuleFilename` (lines 66-74). -/
def isModuleFilename (sub : Subsystem) (name : String) : Bool :=
  let r := os_Stat sub name
  if r.2 ≠ none ∧ r.1 ≠ none then
    match r.1 with
    | some fi => if fi.isRegular then true else false
    | none => false
  else false

/-- The function `modinfoDo` (lines 76-116). -/
def modinfoDo (mod : KmodModule) : M (KModInfo × Option Err) := do
  let ret : KModInfo := { Info := [], Parm := [] }
  match ← kmod_module_get_info mod with
  | none => pure (KModInfo.zero, some ("could not get modinfo: " ++ mod.name))
  | some list =>
    let ret ← liftExcept (modinfoLoop list ret)
    kmod_module_info_free_list list
    pure (ret, none)

/-- The function `modinfoPathDo` (lines 118-130). -/
def modinfoPathDo (sub : Subsystem) (path : String) : M (KModInfo × Option Err) := do
  match ← kmod_module_new_from_path sub path with
  | none => pure (KModInfo.zero, some "module file not found")
  | some mod =>
    let r ← modinfoDo mod
    kmod_module_unref mod
    pure r

/-- The loop of `modinfoAliasDo` over the filtered list (lines 157-161), from
the current values of `kmi` and `err`. -/
def modinfoAliasLoop : List KmodModule → KModInfo × Option Err → M (KModInfo × Option Err)
  | [], cur => pure cur
  | l :: rest, _ => do
    let mod ← kmod_module_get_module l
    let r ← modinfoDo mod
    kmod_module_unref mod
    modinfoAliasLoop rest r

/-- The function `modinfoAliasDo` (lines 132-165). -/
def modinfoAliasDo (sub : Subsystem) (alias_ : String) : M (KModInfo × Option Err) := do
  match ← kmod_module_new_from_lookup sub alias_ with
  | none => pure (KModInfo.zero, some ("module alias " ++ alias_ ++ " not found"))
  | some list =>
    if list.isEmpty then
      pure (KModInfo.zero, some ("module " ++ alias_ ++ " not found"))
    else
      let filtered ← kmod_module_apply_filter sub KMOD_FILTER_BUILTIN list
      kmod_module_unref_list list
      match filtered with
      | none => pure (KModInfo.zero, some "failed to filter list")
      | some filtered =>
        if filtered.isEmpty then
          pure (KModInfo.zero, some ("module " ++ alias_ ++ " not found"))
        else
          let r ← modinfoAliasLoop filtered (KModInfo.zero, none)
          kmod_module_unref_list filtered
          pure r

/-- The function `getModInfo` (lines 167-178). -/
def getModInfo (sub : Subsystem) (name : String) : M (KModInfo × Option Err) :=
  if isModuleFilename sub name then modinfoPathDo sub name else modinfoAliasDo sub name

/-- The holder loop of `GetKModList` (lines 217-221), from the current value of
`holdersEntry`. -/
def holdersLoop : List String → List String → M (List String)
  | [], holdersEntry => pure holdersEntry
  | hitr :: rest, holdersEntry => do
    let hm ← kmod_module_get_module hitr
    let holdersEntry := holdersEntry ++ [hm]
    kmod_module_unref hm
    holdersLoop rest holdersEntry

/-- The module loop of `GetKModList` (lines 205-234), from the current value of
`ret`. The error of `getModInfo` goes to a variable local to the branch and is
dropped (`_ = err`). -/
def modulesLoop (sub : Subsystem) (modinfo : Bool) :
    List KmodModule → List KModList → M (List KModList)
  | [], ret => pure ret
  | itr :: rest, ret => do
    let mod ← kmod_module_get_module itr
    let modEntry : KModList :=
      { Name := mod.name, UseCount := mod.refcnt, Size := mod.size, Holders := [],
        Info := KModInfo.zero }
    let holders ← kmod_module_get_holders mod
    let modEntry ←
      if holders.isEmpty then pure modEntry
      else do
        let holdersEntry ← holdersLoop holders []
        pure { modEntry with Holders := holdersEntry }
    let modEntry ←
      if modinfo then do
        let r ← getModInfo sub modEntry.Name
        pure { modEntry with Info := r.1 }
      else pure modEntry
    let ret := ret ++ [modEntry]
    kmod_module_unref_list holders
    kmod_module_unref mod
    modulesLoop sub modinfo rest ret

/-- The function `GetKModList` (lines 189-240). The returned error is the outer
variable `err`, which no statement assigns. -/
def GetKModList (sub : Subsystem) (modinfo : Bool) : M (List KModList × Option Err) := do
  let err : Option Err := none
  let ctx ← kmod_new sub
  if ctx = false then
    pure ([], some "could not obtain kmod context")
  else
    match ← kmod_module_new_from_loaded sub with
    | none =>
      kmod_unref
      pure ([], some "could not get list of modules")
    | some list =>
      let ret ← modulesLoop sub modinfo list []
      kmod_module_unref_list list
      kmod_unref
      pure (ret, err)

/-- No handle outstanding. -/
def Handles.zero : Handles := { ctx := 0, modules := 0, lists := 0, infoLists := 0 }

/-! ## Auxiliary definitions -/

/-- The info list taken by `kmod_module_get_info`. -/
def Handles.takeInfo (h : Handles) (l : List (String × String)) : Handles :=
  if l.isEmpty then h else { h with infoLists := h.infoLists + 1 }

/-- The record `GetKModList` builds for a module whose metadata is `info`. -/
def recordOf (mod : KmodModule) (info : KModInfo) : KModList :=
  { Name := mod.name, Size := mod.size, UseCount := mod.refcnt, Holders := mod.holders,
    Info := info }

/-- The four fields of a record that the module loop reads from the handle. -/
def KModList.basic (e : KModList) : String × Int × Int × List String :=
  (e.Name, e.Size, e.UseCount, e.Holders)

/-- The same four fields, as the subsystem reports them for a module. -/
def KmodModule.basic (m : KmodModule) : String × Int × Int × List String :=
  (m.name, m.size, m.refcnt, m.holders)

/-! ## Concrete subsystems -/

/-- A module handle with the given info records, no holders. -/
def moduleWith (name : String) (recs : List (String × String)) : KmodModule :=
  { name := name, size := 0, refcnt := 0, holders := [], info := some recs }

/-- The module `foo` of the end-to-end scenario, with its metadata records. -/
def fooModule : KmodModule :=
  { name := "foo", size := 12288, refcnt := 2, holders := ["bar"],
    info := some [("description", "built-in networking driver"),
                  ("parm", "debug:enable verbose logs"), ("parmtype", "debug:bool")] }

/-- The module `bar` of the end-to-end scenario; its info cannot be read. -/
def barModule : KmodModule :=
  { name := "bar", size := 4096, refcnt := 0, holders := [], info := none }

/-- A module `bar` whose info holds a `parm` record without a `:`. -/
def barMalformed : KmodModule :=
  { name := "bar", size := 4096, refcnt := 0, holders := [],
    info := some [("license", "GPL"), ("parm", "debug"), ("author", "nobody")] }

/-- The end-to-end scenario: `foo` and `bar` are loaded and each is found under
its own name, the filter keeps every candidate, and the one file is the regular
file `/lib/modules/foo.ko`, the image of `foo`. -/
def scenario : Subsystem :=
  { kmodNew := true
    loaded := some [fooModule, barModule]
    lookup := fun a =>
      if a = "foo" then some [fooModule] else if a = "bar" then some [barModule] else none
    applyFilter := fun _ l => some l
    fromPath := fun p => if p = "/lib/modules/foo.ko" then some fooModule else none
    stat := fun p => if p = "/lib/modules/foo.ko" then some { isRegular := true } else none }

/-- The scenario with the malformed info on the candidate found for `bar`. -/
def scenarioMalformed : Subsystem :=
  { scenario with
    lookup := fun a =>
      if a = "foo" then some [fooModule] else if a = "bar" then some [barMalformed] else none }

/-- The scenario where every alias lookup fails. -/
def scenarioLookupFails : Subsystem :=
  { scenario with lookup := fun _ => none }

/-- The scenario where every alias lookup succeeds with no candidate. -/
def scenarioNoCandidate : Subsystem :=
  { scenario with lookup := fun _ => some [] }

/-- The scenario where the filter removes every candidate. -/
def scenarioAllBuiltin : Subsystem :=
  { scenario with applyFilter := fun _ _ => some [] }

/-- The scenario where the filter itself fails. -/
def scenarioFilterFails : Subsystem :=
  { scenario with applyFilter := fun _ _ => none }

/-- The scenario where the alias `net` names two candidates, in this order: the
`bar` with the malformed `parm` record, then `foo`. -/
def scenarioMalformedFirst : Subsystem :=
  { scenario with
    lookup := fun a => if a = "net" then some [barMalformed, fooModule] else none }

/-- The scenario where the alias `net` names three candidates, in this order:
`bar` (info unreadable), a module without info records, and `foo`. -/
def scenarioThree : Subsystem :=
  { scenario with
    lookup := fun a =>
      if a = "net" then some [barModule, moduleWith "mid" [], fooModule] else none }

/-! ## Running the computations -/

@[simp] theorem pure_run {α : Type} (a : α) (h : Handles) :
    (pure a : M α) h = .returned a h := rfl

@[simp] theorem bind_run {α β : Type} (m : M α) (f : α → M β) (h : Handles) :
    (m >>= f) h =
      match m h with
      | .returned a h' => f a h'
      | .panicked msg h' => .panicked msg h' := rfl

theorem Handles.dropList_takeList {α : Type} (h : Handles) (l : List α) :
    (h.takeList l).dropList l = h := by
  cases l with
  | nil => rfl
  | cons a t =>
    cases h
    simp [Handles.takeList, Handles.dropList]

theorem Handles.modules_restore (h : Handles) :
    ({ ({ h with modules := h.modules + 1 } : Handles) with
        modules := ({ h with modules := h.modules + 1 } : Handles).modules - 1 } : Handles) = h := by
  cases h
  simp

/-- What `modinfoDo` does, in one equation. -/
theorem modinfoDo_run (mod : KmodModule) (h : Handles) :
    modinfoDo mod h =
      match mod.info with
      | none => .returned (KModInfo.zero, some ("could not get modinfo: " ++ mod.name)) h
      | some list =>
        match modinfoLoop list { Info := [], Parm := [] } with
        | .ok ret => .returned (ret, none) h
        | .error msg => .panicked msg (h.takeInfo list) := by
  unfold modinfoDo
  simp only [bind_run, kmod_module_get_info]
  cases hinfo : mod.info with
  | none => simp
  | some list =>
    cases hloop : modinfoLoop list { Info := [], Parm := [] } with
    | error msg => simp [Handles.takeInfo, liftExcept, hloop]
    | ok ret =>
      cases list with
      | nil => simp [kmod_module_info_free_list, liftExcept, hloop]
      | cons a t =>
        cases h
        simp [kmod_module_info_free_list, liftExcept, hloop]

/-- A returning run of `modinfoDo` leaves the counters as they were, and its
result does not depend on the counters. -/
theorem modinfoDo_returned {mod : KmodModule} {h h' : Handles} {r : KModInfo × Option Err}
    (hr : modinfoDo mod h = .returned r h') :
    h' = h ∧ ∀ g, modinfoDo mod g = .returned r g := by
  rw [modinfoDo_run] at hr
  cases hinfo : mod.info with
  | none =>
    rw [hinfo] at hr
    simp only [Outcome.returned.injEq] at hr
    refine ⟨hr.2.symm, fun g => ?_⟩
    rw [modinfoDo_run, hinfo, ← hr.1]
  | some list =>
    cases hloop : modinfoLoop list { Info := [], Parm := [] } with
    | error msg => simp [hinfo, hloop] at hr
    | ok ret =>
      simp only [hinfo, hloop, Outcome.returned.injEq] at hr
      refine ⟨hr.2.symm, fun g => ?_⟩
      rw [modinfoDo_run, hinfo]
      simp only [hloop, ← hr.1]

/-- One candidate of the alias loop: take the module, read its info, give the
module back. -/
theorem candidate_run {α : Type} (l : KmodModule) (k : KModInfo × Option Err → M α)
    (h : Handles) {r : KModInfo × Option Err} {g : Handles}
    (hr : modinfoDo l g = .returned r g) :
    (do
      let mod ← kmod_module_get_module l
      let r ← modinfoDo mod
      kmod_module_unref mod
      k r : M α) h = k r h := by
  simp only [bind_run, kmod_module_get_module]
  rw [(modinfoDo_returned hr).2]
  simp only [kmod_module_unref]
  rw [Handles.modules_restore]

theorem modinfoPathDo_returned {sub : Subsystem} {path : String} {h h' : Handles}
    {r : KModInfo × Option Err} (hr : modinfoPathDo sub path h = .returned r h') :
    h' = h := by
  unfold modinfoPathDo at hr
  simp only [bind_run, kmod_module_new_from_path] at hr
  cases hp : sub.fromPath path with
  | none =>
    simp only [hp, pure_run, Outcome.returned.injEq] at hr
    exact hr.2.symm
  | some mod =>
    simp only [hp] at hr
    cases hd : modinfoDo mod { h with modules := h.modules + 1 } with
    | panicked msg g => simp [hd, bind_run] at hr
    | returned r1 g =>
      have hg := (modinfoDo_returned hd).1
      subst hg
      simp only [bind_run, hd, kmod_module_unref, pure_run, Outcome.returned.injEq] at hr
      rw [Handles.modules_restore] at hr
      exact hr.2.symm

theorem modinfoAliasLoop_returned (list : List KmodModule) :
    ∀ (cur : KModInfo × Option Err) (h h' : Handles) (r : KModInfo × Option Err),
      modinfoAliasLoop list cur h = .returned r h' → h' = h := by
  induction list with
  | nil =>
    intro cur h h' r hr
    simp only [modinfoAliasLoop, pure_run, Outcome.returned.injEq] at hr
    exact hr.2.symm
  | cons l rest ih =>
    intro cur h h' r hr
    simp only [modinfoAliasLoop, bind_run, kmod_module_get_module] at hr
    cases hd : modinfoDo l { h with modules := h.modules + 1 } with
    | panicked msg g => simp [hd] at hr
    | returned r1 g =>
      have hg := (modinfoDo_returned hd).1
      subst hg
      simp only [hd, kmod_module_unref] at hr
      rw [Handles.modules_restore] at hr
      exact ih _ _ _ _ hr

theorem Handles.dropList_takeList_takeList {α β : Type} (h : Handles) (l : List α)
    (f : List β) : ((h.takeList l).takeList f).dropList l = h.takeList f := by
  cases l <;> cases f <;> cases h <;> simp [Handles.takeList, Handles.dropList]

/-- What `modinfoAliasDo` does, in one equation. -/
theorem modinfoAliasDo_run (sub : Subsystem) (alias_ : String) (h : Handles) :
    modinfoAliasDo sub alias_ h =
      match sub.lookup alias_ with
      | none => .returned (KModInfo.zero, some ("module alias " ++ alias_ ++ " not found")) h
      | some list =>
        if list.isEmpty then
          .returned (KModInfo.zero, some ("module " ++ alias_ ++ " not found")) h
        else
          match sub.applyFilter KMOD_FILTER_BUILTIN list with
          | none => .returned (KModInfo.zero, some "failed to filter list") h
          | some filtered =>
            if filtered.isEmpty then
              .returned (KModInfo.zero, some ("module " ++ alias_ ++ " not found")) h
            else
              match modinfoAliasLoop filtered (KModInfo.zero, none) (h.takeList filtered) with
              | .returned r g => .returned r (g.dropList filtered)
              | .panicked msg g => .panicked msg g := by
  unfold modinfoAliasDo
  simp only [bind_run, kmod_module_new_from_lookup]
  cases hl : sub.lookup alias_ with
  | none => simp
  | some list =>
    cases list with
    | nil => simp [Handles.takeList]
    | cons a t =>
      simp only [List.isEmpty_cons, Bool.false_eq_true, if_false, bind_run,
        kmod_module_apply_filter, kmod_module_unref_list]
      cases hf : sub.applyFilter KMOD_FILTER_BUILTIN (a :: t) with
      | none => simp [Handles.dropList_takeList]
      | some filtered =>
        simp only [Handles.dropList_takeList_takeList]
        cases filtered with
        | nil => simp [Handles.takeList]
        | cons b u =>
          simp only [List.isEmpty_cons, Bool.false_eq_true, if_false, bind_run]
          cases modinfoAliasLoop (b :: u) (KModInfo.zero, none) (h.takeList (b :: u)) <;>
            simp [kmod_module_unref_list]

theorem modinfoAliasDo_returned {sub : Subsystem} {alias_ : String} {h h' : Handles}
    {r : KModInfo × Option Err} (hr : modinfoAliasDo sub alias_ h = .returned r h') :
    h' = h := by
  rw [modinfoAliasDo_run] at hr
  cases hl : sub.lookup alias_ with
  | none => simp only [hl, Outcome.returned.injEq] at hr; exact hr.2.symm
  | some list =>
    simp only [hl] at hr
    split at hr
    · simp only [Outcome.returned.injEq] at hr; exact hr.2.symm
    · split at hr
      · simp only [Outcome.returned.injEq] at hr; exact hr.2.symm
      · split at hr
        · simp only [Outcome.returned.injEq] at hr; exact hr.2.symm
        · split at hr
          · next filtered _ r1 g hloop =>
            have hg := modinfoAliasLoop_returned _ _ _ _ _ hloop
            subst hg
            simp only [Outcome.returned.injEq, Handles.dropList_takeList] at hr
            exact hr.2.symm
          · cases hr

theorem getModInfo_returned {sub : Subsystem} {name : String} {h h' : Handles}
    {r : KModInfo × Option Err} (hr : getModInfo sub name h = .returned r h') :
    h' = h := by
  unfold getModInfo at hr
  split at hr
  · exact modinfoPathDo_returned hr
  · exact modinfoAliasDo_returned hr

theorem holdersLoop_run (l : List String) :
    ∀ (acc : List String) (h : Handles), holdersLoop l acc h = .returned (acc ++ l) h := by
  induction l with
  | nil => intro acc h; simp [holdersLoop]
  | cons a t ih =>
    intro acc h
    simp only [holdersLoop, bind_run, kmod_module_get_module, kmod_module_unref]
    rw [Handles.modules_restore, ih]
    simp

theorem Handles.ctx_restore (h : Handles) :
    ({ ({ h with ctx := h.ctx + 1 } : Handles) with
        ctx := ({ h with ctx := h.ctx + 1 } : Handles).ctx - 1 } : Handles) = h := by
  cases h
  simp

/-- One iteration of the module loop of `GetKModList`. -/
theorem modulesLoop_cons_run (sub : Subsystem) (modinfo : Bool) (itr : KmodModule)
    (rest : List KmodModule) (ret : List KModList) (h : Handles) :
    modulesLoop sub modinfo (itr :: rest) ret h =
      if modinfo then
        match getModInfo sub itr.name
            (({ h with modules := h.modules + 1 } : Handles).takeList itr.holders) with
        | .returned r g =>
          modulesLoop sub modinfo rest (ret ++ [recordOf itr r.1])
            { g.dropList itr.holders with modules := (g.dropList itr.holders).modules - 1 }
        | .panicked msg g => .panicked msg g
      else modulesLoop sub modinfo rest (ret ++ [recordOf itr KModInfo.zero]) h := by
  obtain ⟨name, size, refcnt, holders, info⟩ := itr
  rw [modulesLoop]
  simp only [bind_run, kmod_module_get_module, kmod_module_get_holders]
  cases holders with
  | nil =>
    cases modinfo with
    | false =>
      simp only [List.isEmpty_nil, if_true, Bool.false_eq_true, if_false, bind_run, pure_run,
        kmod_module_unref_list, kmod_module_unref, Handles.dropList_takeList]
      rw [Handles.modules_restore]
      rfl
    | true =>
      simp only [List.isEmpty_nil, if_true, bind_run, pure_run]
      cases getModInfo sub name
          (({ h with modules := h.modules + 1 } : Handles).takeList ([] : List String)) <;>
        simp [recordOf, kmod_module_unref_list, kmod_module_unref]
  | cons a t =>
    cases modinfo with
    | false =>
      simp only [List.isEmpty_cons, Bool.false_eq_true, if_false, bind_run, pure_run,
        holdersLoop_run, kmod_module_unref_list, kmod_module_unref, Handles.dropList_takeList]
      rw [Handles.modules_restore]
      rfl
    | true =>
      simp only [List.isEmpty_cons, Bool.false_eq_true, if_false, if_true, bind_run, pure_run,
        holdersLoop_run]
      cases getModInfo sub name
          (({ h with modules := h.modules + 1 } : Handles).takeList (a :: t)) <;>
        simp [recordOf, kmod_module_unref_list, kmod_module_unref]

/-- A returning run of the module loop leaves the counters as they were and
appends one record per module, in list order, each with the module's name,
size, use count and holders. -/
theorem modulesLoop_returned (sub : Subsystem) (modinfo : Bool) (list : List KmodModule) :
    ∀ (ret ret' : List KModList) (h h' : Handles),
      modulesLoop sub modinfo list ret h = .returned ret' h' →
        h' = h ∧ ∃ added : List KModList,
          ret' = ret ++ added ∧ added.map KModList.basic = list.map KmodModule.basic := by
  induction list with
  | nil =>
    intro ret ret' h h' hr
    simp only [modulesLoop, pure_run, Outcome.returned.injEq] at hr
    exact ⟨hr.2.symm, [], by simp [hr.1], rfl⟩
  | cons itr rest ih =>
    intro ret ret' h h' hr
    rw [modulesLoop_cons_run] at hr
    cases modinfo with
    | false =>
      simp only [Bool.false_eq_true, if_false] at hr
      obtain ⟨hh, added, hret, hmap⟩ := ih _ _ _ _ hr
      refine ⟨hh, recordOf itr KModInfo.zero :: added, by simp [hret], ?_⟩
      simp [hmap, recordOf, KModList.basic, KmodModule.basic]
    | true =>
      simp only [if_true] at hr
      cases hg : getModInfo sub itr.name
          (({ h with modules := h.modules + 1 } : Handles).takeList itr.holders) with
      | panicked msg g => simp [hg] at hr
      | returned r g =>
        have hgeq := getModInfo_returned hg
        subst hgeq
        simp only [hg, Handles.dropList_takeList] at hr
        rw [Handles.modules_restore] at hr
        obtain ⟨hh, added, hret, hmap⟩ := ih _ _ _ _ hr
        refine ⟨hh, recordOf itr r.1 :: added, by simp [hret], ?_⟩
        simp [hmap, recordOf, KModList.basic, KmodModule.basic]

/-- Without metadata the module loop always returns, every record with the zero
`KModInfo`. -/
theorem modulesLoop_false_run (sub : Subsystem) (list : List KmodModule) :
    ∀ (ret : List KModList) (h : Handles),
      modulesLoop sub false list ret h =
        .returned (ret ++ list.map (fun m => recordOf m KModInfo.zero)) h := by
  induction list with
  | nil => intro ret h; simp [modulesLoop]
  | cons itr rest ih =>
    intro ret h
    rw [modulesLoop_cons_run]
    simp [ih]

/-- What `GetKModList` does, in one equation. -/
theorem GetKModList_run (sub : Subsystem) (modinfo : Bool) (h : Handles) :
    GetKModList sub modinfo h =
      if sub.kmodNew then
        match sub.loaded with
        | none => .returned ([], some "could not get list of modules") h
        | some list =>
          match modulesLoop sub modinfo list []
              (({ h with ctx := h.ctx + 1 } : Handles).takeList list) with
          | .returned ret g =>
            .returned (ret, none)
              { g.dropList list with ctx := (g.dropList list).ctx - 1 }
          | .panicked msg g => .panicked msg g
      else .returned ([], some "could not obtain kmod context") h := by
  unfold GetKModList
  simp only [bind_run, kmod_new]
  cases hk : sub.kmodNew with
  | false => simp
  | true =>
    simp only [if_true, Bool.true_eq_false, if_false, bind_run, kmod_module_new_from_loaded]
    cases hl : sub.loaded with
    | none =>
      simp only [bind_run, kmod_unref, pure_run]
      rw [Handles.ctx_restore]
    | some list =>
      simp only [bind_run]
      cases modulesLoop sub modinfo list []
          (({ h with ctx := h.ctx + 1 } : Handles).takeList list) <;>
        simp [kmod_module_unref_list, kmod_unref]

theorem GetKModList_returned {sub : Subsystem} {modinfo : Bool} {h h' : Handles}
    {r : List KModList × Option Err} (hr : GetKModList sub modinfo h = .returned r h') :
    h' = h := by
  rw [GetKModList_run] at hr
  cases hk : sub.kmodNew with
  | false => simp only [hk, Bool.false_eq_true, if_false, Outcome.returned.injEq] at hr; exact hr.2.symm
  | true =>
    simp only [hk, if_true] at hr
    cases hl : sub.loaded with
    | none => simp only [hl, Outcome.returned.injEq] at hr; exact hr.2.symm
    | some list =>
      simp only [hl] at hr
      cases hm : modulesLoop sub modinfo list []
          (({ h with ctx := h.ctx + 1 } : Handles).takeList list) with
      | panicked msg g => simp [hm] at hr
      | returned ret g =>
        have hg := (modulesLoop_returned sub modinfo list _ _ _ _ hm).1
        subst hg
        simp only [hm, Handles.dropList_takeList, Outcome.returned.injEq] at hr
        rw [Handles.ctx_restore] at hr
        exact hr.2.symm

/-! ## The info map built by the record loop -/

theorem mapGet_mapSet_same {V : Type} (m : List (String × V)) (k : String) (v : V) :
    mapGet (mapSet m k v) k = some v := by
  induction m with
  | nil => simp [mapSet, mapGet]
  | cons e rest ih =>
    obtain ⟨k', v'⟩ := e
    by_cases hk : k' = k
    · simp [mapSet, mapGet, hk]
    · simp [mapSet, mapGet, hk, ih]

theorem mapGet_mapSet_ne {V : Type} (m : List (String × V)) (k k' : String) (v : V)
    (hne : k ≠ k') : mapGet (mapSet m k v) k' = mapGet m k' := by
  induction m with
  | nil => simp [mapSet, mapGet, hne]
  | cons e rest ih =>
    obtain ⟨k₀, v₀⟩ := e
    by_cases hk : k₀ = k
    · subst hk
      simp [mapSet, mapGet, hne]
    · by_cases hk' : k₀ = k'
      · subst hk'
        simp [mapSet, mapGet, hk]
      · simp [mapSet, mapGet, hk, hk', ih]

theorem splitChars_ne_nil (sep : Char) (cs : List Char) : splitChars sep cs ≠ [] := by
  cases cs with
  | nil => simp [splitChars]
  | cons c cs =>
    simp only [splitChars]
    split
    · simp
    · split <;> simp

theorem splitChars_length (sep : Char) (cs : List Char) (hmem : sep ∈ cs) :
    2 ≤ (splitChars sep cs).length := by
  induction cs with
  | nil => simp at hmem
  | cons c cs ih =>
    simp only [splitChars]
    by_cases hc : c = sep
    · have hpos : 0 < (splitChars sep cs).length :=
        List.length_pos.mpr (splitChars_ne_nil sep cs)
      simp only [hc, if_true, List.length_cons]
      omega
    · have hin : sep ∈ cs := by
        rcases List.mem_cons.mp hmem with h | h
        · exact absurd h.symm hc
        · exact h
      have := ih hin
      simp only [hc, if_false]
      cases hs : splitChars sep cs with
      | nil => simp [hs] at this
      | cons p ps => simpa [hs] using this

theorem goIndex_ok {α : Type} (xs : List α) (i : Nat) (hi : i < xs.length) :
    ∃ x, goIndex xs i = .ok x := by
  unfold goIndex
  cases hx : xs.get? i with
  | some x => exact ⟨x, rfl⟩
  | none =>
    have := List.get?_eq_none.mp hx
    omega

/-- A control record whose value holds a `:` is processed without a panic and
leaves the info map alone. -/
theorem modinfoRecord_control (ret : KModInfo) (key value : String)
    (hkey : key = "parm" ∨ key = "parmtype") (hcolon : ':' ∈ value.data) :
    ∃ ret', modinfoRecord ret key value = .ok ret' ∧ ret'.Info = ret.Info := by
  have hlen : 2 ≤ (strings_Split_colon value).length := by
    simpa [strings_Split_colon] using splitChars_length ':' value.data hcolon
  obtain ⟨x0, h0⟩ := goIndex_ok (strings_Split_colon value) 0 (by omega)
  obtain ⟨x1, h1⟩ := goIndex_ok (strings_Split_colon value) 1 (by omega)
  unfold modinfoRecord
  simp only [hkey, if_true, h0, h1]
  refine ⟨_, rfl, ?_⟩
  split <;> split <;> split <;> (try split) <;> rfl

/-- A generic record appends its value to the sequence of its key. -/
theorem modinfoRecord_generic (ret : KModInfo) (key value : String)
    (hp : key ≠ "parm") (hpt : key ≠ "parmtype") :
    modinfoRecord ret key value =
      .ok { ret with Info := mapSet ret.Info key ((mapGet ret.Info key).getD [] ++ [value]) } := by
  unfold modinfoRecord
  simp [hp, hpt]
  rfl

/-- The record loop on a stream whose control records all hold a `:`: it
returns, every generic key has gained its values in stream order, and the
entries of the control keys are untouched. -/
theorem modinfoLoop_info (recs : List (String × String)) :
    ∀ ret : KModInfo,
      (∀ r ∈ recs, (r.1 = "parm" ∨ r.1 = "parmtype") → ':' ∈ r.2.data) →
      ∃ ret', modinfoLoop recs ret = .ok ret' ∧
        (∀ k, k ≠ "parm" → k ≠ "parmtype" →
          (mapGet ret'.Info k).getD [] =
            (mapGet ret.Info k).getD [] ++ (recs.filter (fun r => r.1 = k)).map Prod.snd) ∧
        (∀ k, k = "parm" ∨ k = "parmtype" → mapGet ret'.Info k = mapGet ret.Info k) := by
  induction recs with
  | nil =>
    intro ret _
    exact ⟨ret, rfl, by simp, fun _ _ => rfl⟩
  | cons rec rest ih =>
    obtain ⟨key, value⟩ := rec
    intro ret hwf
    have hrest : ∀ r ∈ rest, (r.1 = "parm" ∨ r.1 = "parmtype") → ':' ∈ r.2.data :=
      fun r hr => hwf r (List.mem_cons_of_mem _ hr)
    by_cases hkey : key = "parm" ∨ key = "parmtype"
    · obtain ⟨ret1, hrec, hinfo⟩ :=
        modinfoRecord_control ret key value hkey (hwf (key, value) (List.mem_cons_self _ _) hkey)
      obtain ⟨ret', hloop, hgen, hctl⟩ := ih ret1 hrest
      refine ⟨ret', by simp [modinfoLoop, hrec, hloop], ?_, ?_⟩
      · intro k hp hpt
        have hne : ¬ key = k := by
          rcases hkey with h | h
          · rw [h]; exact fun e => hp e.symm
          · rw [h]; exact fun e => hpt e.symm
        rw [hgen k hp hpt, hinfo]
        simp [List.filter_cons, hne]
      · intro k hk
        rw [hctl k hk, hinfo]
    · have hp : key ≠ "parm" := fun e => hkey (Or.inl e)
      have hpt : key ≠ "parmtype" := fun e => hkey (Or.inr e)
      obtain ⟨ret', hloop, hgen, hctl⟩ :=
        ih { ret with Info := mapSet ret.Info key ((mapGet ret.Info key).getD [] ++ [value]) }
          hrest
      refine ⟨ret', by simp [modinfoLoop, modinfoRecord_generic ret key value hp hpt, hloop],
        ?_, ?_⟩
      · intro k hkp hkpt
        rw [hgen k hkp hkpt]
        by_cases hk : key = k
        · subst hk
          simp [mapGet_mapSet_same, List.filter_cons]
        · simp [mapGet_mapSet_ne _ _ _ _ hk, List.filter_cons, hk]
      · intro k hk
        have hne : key ≠ k := by
          rcases hk with h | h
          · rw [h]; exact hp
          · rw [h]; exact hpt
        rw [hctl k hk]
        exact mapGet_mapSet_ne _ _ _ _ hne

/-- C7. Generic records accumulate in arrival order without deduplication: when
`kmod_module_get_info` yields a record stream whose `parm` and `parmtype`
records all hold a `:`, `modinfoDo` returns without error, and for every key
`k` other than `parm` and `parmtype` the returned `Info[k]` is the list of the
values of the records with key `k`, in stream order with duplicates kept, while
`Info` has no entry for `parm` nor for `parmtype`. -/
theorem C7_generic_records_accumulate (mod : KmodModule) (recs : List (String × String))
    (h : Handles) (hinfo : mod.info = some recs)
    (hwf : ∀ r ∈ recs, (r.1 = "parm" ∨ r.1 = "parmtype") → ':' ∈ r.2.data) :
    ∃ ret : KModInfo, modinfoDo mod h = .returned (ret, none) h ∧
      (∀ k, k ≠ "parm" → k ≠ "parmtype" →
        (mapGet ret.Info k).getD [] = (recs.filter (fun r => r.1 = k)).map Prod.snd) ∧
      mapGet ret.Info "parm" = none ∧ mapGet ret.Info "parmtype" = none := by
  obtain ⟨ret, hloop, hgen, hctl⟩ := modinfoLoop_info recs { Info := [], Parm := [] } hwf
  refine ⟨ret, ?_, ?_, ?_, ?_⟩
  · rw [modinfoDo_run]
    simp only [hinfo, hloop]
  · intro k hp hpt
    rw [hgen k hp hpt]
    simp [mapGet]
  · rw [hctl "parm" (Or.inl rfl)]; rfl
  · rw [hctl "parmtype" (Or.inr rfl)]; rfl

/-! ## Alias resolution -/

/-- The alias loop over candidates that all return ends with the result of the
last one. -/
theorem modinfoAliasLoop_last (init : List KmodModule) (last : KmodModule)
    (r : KModInfo × Option Err) (g : Handles)
    (hinit : ∀ c ∈ init, ∃ rc g', modinfoDo c g = .returned rc g')
    (hlast : modinfoDo last g = .returned r g) :
    ∀ (cur : KModInfo × Option Err) (h : Handles),
      modinfoAliasLoop (init ++ [last]) cur h = .returned r h := by
  induction init with
  | nil =>
    intro cur h
    simp only [List.nil_append, modinfoAliasLoop]
    rw [candidate_run last _ h hlast]
    simp [modinfoAliasLoop]
  | cons c rest ih =>
    intro cur h
    obtain ⟨rc, g', hc⟩ := hinit c (List.mem_cons_self _ _)
    have hg := (modinfoDo_returned hc).1
    subst hg
    simp only [List.cons_append, modinfoAliasLoop]
    rw [candidate_run c _ h hc]
    exact ih (fun d hd => hinit d (List.mem_cons_of_mem _ hd)) rc h

/-- When the alias lookup yields a non-empty list and the filter leaves the
non-empty list `init ++ [last]`, and `modinfoDo` returned (a success or an
error) for each earlier candidate, `modinfoAliasDo` returns exactly the
`(KModInfo, error)` pair that `modinfoDo` returns for `last`. An earlier
candidate on which `modinfoDo` panics is outside this lemma. -/
theorem modinfoAliasDo_last_of_returning (sub : Subsystem) (alias_ : String)
    (list init : List KmodModule) (last : KmodModule) (h h' : Handles)
    (r : KModInfo × Option Err)
    (hlookup : sub.lookup alias_ = some list) (hne : list ≠ [])
    (hfilter : sub.applyFilter KMOD_FILTER_BUILTIN list = some (init ++ [last]))
    (hinit : ∀ c ∈ init, ∃ rc g, modinfoDo c h = .returned rc g)
    (hlast : modinfoDo last h = .returned r h') :
    modinfoAliasDo sub alias_ h = .returned r h := by
  have hh := (modinfoDo_returned hlast).1
  subst hh
  rw [modinfoAliasDo_run]
  have hle : list.isEmpty = false := by
    cases list with
    | nil => exact absurd rfl hne
    | cons a t => rfl
  have hfe : (init ++ [last]).isEmpty = false := by
    cases init <;> rfl
  simp only [hlookup, hle, hfilter, hfe, Bool.false_eq_true, if_false]
  rw [modinfoAliasLoop_last init last r h' hinit hlast]
  simp only [Handles.dropList_takeList]

/-- C6 (as the code has it). `modinfoAliasDo` fails with
`module alias <name> not found` when the alias lookup itself fails; it fails
with `module <name> not found` both when the lookup succeeds with zero
candidates and when the filter succeeds and leaves zero candidates; for every
alias the first message differs from the second. -/
theorem C6_alias_lookup_errors (sub : Subsystem) (alias_ : String) (h : Handles) :
    (sub.lookup alias_ = none →
      modinfoAliasDo sub alias_ h =
        .returned (KModInfo.zero, some ("module alias " ++ alias_ ++ " not found")) h) ∧
    (sub.lookup alias_ = some [] →
      modinfoAliasDo sub alias_ h =
        .returned (KModInfo.zero, some ("module " ++ alias_ ++ " not found")) h) ∧
    (∀ list, list ≠ [] → sub.lookup alias_ = some list →
      sub.applyFilter KMOD_FILTER_BUILTIN list = some [] →
      modinfoAliasDo sub alias_ h =
        .returned (KModInfo.zero, some ("module " ++ alias_ ++ " not found")) h) ∧
    "module alias " ++ alias_ ++ " not found" ≠ "module " ++ alias_ ++ " not found" := by
  refine ⟨?_, ?_, ?_, ?_⟩
  · intro hl
    rw [modinfoAliasDo_run]
    simp only [hl]
  · intro hl
    rw [modinfoAliasDo_run]
    simp only [hl, List.isEmpty_nil, if_true]
  · intro list hne hl hf
    have hle : list.isEmpty = false := by
      cases list with
      | nil => exact absurd rfl hne
      | cons a t => rfl
    rw [modinfoAliasDo_run]
    simp only [hl, hle, hf, Bool.false_eq_true, if_false, List.isEmpty_nil, if_true]
  · intro heq
    have hlen := congrArg String.length heq
    simp only [String.length_append] at hlen
    have h1 : "module alias ".length = 13 := by decide
    have h2 : "module ".length = 7 := by decide
    omega

/-- C9. Handle acquisitions are balanced on every returning path: a run of
`GetKModList` (either flag), `modinfoPathDo`, `modinfoAliasDo` or `modinfoDo`
that returns, with or without an error, ends with the counters of outstanding
contexts, module handles, module lists and info lists it started with. -/
theorem C9_handles_balanced (sub : Subsystem) (h h' : Handles) :
    (∀ modinfo r, GetKModList sub modinfo h = .returned r h' → h' = h) ∧
    (∀ path r, modinfoPathDo sub path h = .returned r h' → h' = h) ∧
    (∀ alias_ r, modinfoAliasDo sub alias_ h = .returned r h' → h' = h) ∧
    (∀ mod r, modinfoDo mod h = .returned r h' → h' = h) :=
  ⟨fun _ _ hr => GetKModList_returned hr, fun _ _ hr => modinfoPathDo_returned hr,
    fun _ _ hr => modinfoAliasDo_returned hr, fun _ _ hr => (modinfoDo_returned hr).1⟩

/-! ## Enumeration -/

/-- When the context and the loaded-module list are obtained, a returning run of
`GetKModList` gives one record per loaded module, in list order, with the
module's name, size, use count and holders, and a nil error. -/
theorem GetKModList_records (sub : Subsystem) (modinfo : Bool) (list : List KmodModule)
    (h h' : Handles) (r : List KModList × Option Err)
    (hk : sub.kmodNew = true) (hl : sub.loaded = some list)
    (hr : GetKModList sub modinfo h = .returned r h') :
    r.1.map KModList.basic = list.map KmodModule.basic ∧ r.2 = none := by
  rw [GetKModList_run] at hr
  simp only [hk, if_true, hl] at hr
  cases hm : modulesLoop sub modinfo list []
      (({ h with ctx := h.ctx + 1 } : Handles).takeList list) with
  | panicked msg g => simp [hm] at hr
  | returned ret g =>
    obtain ⟨_, added, hret, hmap⟩ := modulesLoop_returned sub modinfo list _ _ _ _ hm
    simp only [hm, Outcome.returned.injEq] at hr
    rw [← hr.1]
    simp only [List.nil_append] at hret
    exact ⟨by rw [hret, hmap], rfl⟩

/-- Without metadata, when the context and the loaded-module list are obtained,
`GetKModList` returns one record per loaded module, in list order, each with
the zero `KModInfo`. -/
theorem GetKModList_false_run (sub : Subsystem) (list : List KmodModule) (h : Handles)
    (hk : sub.kmodNew = true) (hl : sub.loaded = some list) :
    GetKModList sub false h =
      .returned (list.map (fun m => recordOf m KModInfo.zero), none) h := by
  rw [GetKModList_run]
  simp only [hk, if_true, hl, modulesLoop_false_run, List.nil_append,
    Handles.dropList_takeList]
  rw [Handles.ctx_restore]

/-! ## The claims at concrete inputs -/

/-- C1. Parameter merge depends on the order of the two records: with the
`parmtype` record of `x` first, the later `parm` record replaces the whole
descriptor and the type is lost, so `x` ends as `{Desc: "count of items",
Type: ""}`; with the `parm` record first, `x` ends as `{Desc: "count of items",
Type: "int"}`. -/
theorem C1_parm_after_parmtype_loses_type :
    modinfoDo (moduleWith "m" [("parmtype", "x:int"), ("parm", "x:count of items")])
        Handles.zero =
      .returned
        ({ Info := [], Parm := [("x", { Desc := "count of items", Type_ := "" })] }, none)
        Handles.zero ∧
    modinfoDo (moduleWith "m" [("parm", "x:count of items"), ("parmtype", "x:int")])
        Handles.zero =
      .returned
        ({ Info := [], Parm := [("x", { Desc := "count of items", Type_ := "int" })] }, none)
        Handles.zero := by
  constructor <;> decide

/-- C2. A `parm` record whose value has no `:` stops `modinfoDo` with the
runtime panic of the index `parmkv[1]`: nothing is returned, the records after
it are never read, and the info list is still outstanding. -/
theorem C2_malformed_record_panics :
    modinfoDo barMalformed Handles.zero =
      .panicked "runtime error: index out of range [1] with length 1"
        { ctx := 0, modules := 0, lists := 0, infoLists := 1 } := by
  decide

/-- C3. `isModuleFilename` is false for every name, so `getModInfo` always takes
the alias resolver; for the regular file `/lib/modules/foo.ko`, whose stat
succeeds, `getModInfo` returns the error of the alias lookup although the path
resolver would have returned the metadata of the image. -/
theorem C3_regular_file_takes_alias_resolver :
    (∀ (sub : Subsystem) (name : String),
      isModuleFilename sub name = false ∧ getModInfo sub name = modinfoAliasDo sub name) ∧
    os_Stat scenario "/lib/modules/foo.ko" = (some { isRegular := true }, none) ∧
    getModInfo scenario "/lib/modules/foo.ko" Handles.zero =
      .returned (KModInfo.zero, some "module alias /lib/modules/foo.ko not found")
        Handles.zero ∧
    modinfoPathDo scenario "/lib/modules/foo.ko" Handles.zero =
      .returned
        ({ Info := [("description", ["built-in networking driver"])],
           Parm := [("debug", { Desc := "enable verbose logs", Type_ := "bool" })] }, none)
        Handles.zero := by
  have hall : ∀ (sub : Subsystem) (name : String), isModuleFilename sub name = false := by
    intro sub name
    unfold isModuleFilename os_Stat
    cases sub.stat name <;> simp
  refine ⟨fun sub name => ⟨hall sub name, ?_⟩, by decide, by decide, by decide⟩
  unfold getModInfo
  simp [hall sub name]

/-- C4. The error of `getModInfo` is dropped by `GetKModList`: where every alias
lookup fails (`module alias foo not found`) and where every lookup finds no
candidate (`module foo not found`), `GetKModList(true)` returns the same
records, with the zero `KModInfo`, and a nil error. -/
theorem C4_metadata_error_is_dropped :
    getModInfo scenarioLookupFails "foo" Handles.zero =
      .returned (KModInfo.zero, some "module alias foo not found") Handles.zero ∧
    getModInfo scenarioNoCandidate "foo" Handles.zero =
      .returned (KModInfo.zero, some "module foo not found") Handles.zero ∧
    GetKModList scenarioLookupFails true Handles.zero =
      .returned ([recordOf fooModule KModInfo.zero, recordOf barModule KModInfo.zero], none)
        Handles.zero ∧
    GetKModList scenarioNoCandidate true Handles.zero =
      GetKModList scenarioLookupFails true Handles.zero := by
  refine ⟨by decide, by decide, by decide, by decide⟩

/-- C5. A control value is cut at every `:` and only the second piece is kept:
the `parm` value `debug:level: 0=off` gives the description `level`, and the
`parmtype` value `mode:array of int:3` gives the type `array of int`. -/
theorem C5_value_cut_at_second_colon :
    modinfoDo (moduleWith "m" [("parm", "debug:level: 0=off")]) Handles.zero =
      .returned ({ Info := [], Parm := [("debug", { Desc := "level", Type_ := "" })] }, none)
        Handles.zero ∧
    modinfoDo (moduleWith "m" [("parmtype", "mode:array of int:3")]) Handles.zero =
      .returned
        ({ Info := [], Parm := [("mode", { Desc := "", Type_ := "array of int" })] }, none)
        Handles.zero := by
  constructor <;> decide

/-- C6, the claim fails: where the alias lookup succeeds with zero candidates
the error is `module foo not found`, not `module alias foo not found`, and it
is the very error returned where the filter leaves zero candidates. -/
theorem C6_empty_lookup_is_module_not_found :
    modinfoAliasDo scenarioNoCandidate "foo" Handles.zero =
      .returned (KModInfo.zero, some "module foo not found") Handles.zero ∧
    modinfoAliasDo scenarioNoCandidate "foo" Handles.zero ≠
      .returned (KModInfo.zero, some "module alias foo not found") Handles.zero ∧
    modinfoAliasDo scenarioAllBuiltin "foo" Handles.zero =
      modinfoAliasDo scenarioNoCandidate "foo" Handles.zero := by
  refine ⟨by decide, by decide, by decide⟩

/-- C8. With metadata requested, the malformed `parm` record found for `bar`
stops `GetKModList` with a runtime panic: no record is returned for the two
loaded modules, and the context, the module, the lists and the info list are
left outstanding. Without metadata the two records are returned in order. -/
theorem C8_enumeration_panics_on_malformed_record :
    GetKModList scenarioMalformed true Handles.zero =
      .panicked "runtime error: index out of range [1] with length 1"
        { ctx := 1, modules := 2, lists := 2, infoLists := 1 } ∧
    GetKModList scenarioMalformed false Handles.zero =
      .returned
        ([{ Name := "foo", Size := 12288, UseCount := 2, Holders := ["bar"],
            Info := KModInfo.zero },
          { Name := "bar", Size := 4096, UseCount := 0, Holders := [],
            Info := KModInfo.zero }], none)
        Handles.zero := by
  constructor <;> decide

/-- C10. The last candidate does not win when an earlier one stops the run:
for the alias `net` the filtered list is `[bar, foo]`, `modinfoDo` returns the
metadata of the last candidate `foo` with a nil error, but `modinfoAliasDo`
returns no pair at all: the malformed `parm` record of `bar` stops it with the
runtime panic of `parmkv[1]` before `foo` is read, the filtered list, the
module and the info list still outstanding. -/
theorem C10_earlier_candidate_panic_wins :
    scenarioMalformedFirst.lookup "net" = some [barMalformed, fooModule] ∧
    scenarioMalformedFirst.applyFilter KMOD_FILTER_BUILTIN [barMalformed, fooModule] =
      some [barMalformed, fooModule] ∧
    modinfoDo fooModule Handles.zero =
      .returned
        ({ Info := [("description", ["built-in networking driver"])],
           Parm := [("debug", { Desc := "enable verbose logs", Type_ := "bool" })] }, none)
        Handles.zero ∧
    modinfoAliasDo scenarioMalformedFirst "net" Handles.zero =
      .panicked "runtime error: index out of range [1] with length 1"
        { ctx := 0, modules := 1, lists := 1, infoLists := 1 } := by
  refine ⟨by decide, by decide, by decide, by decide⟩

/-! ## The general theorems at concrete inputs -/

/-- C6 at concrete inputs: the lookup fails, the lookup finds no candidate, the
filter leaves no candidate. -/
theorem C6_alias_lookup_errors_witness :
    modinfoAliasDo scenarioLookupFails "foo" Handles.zero =
      .returned (KModInfo.zero, some "module alias foo not found") Handles.zero ∧
    modinfoAliasDo scenarioNoCandidate "foo" Handles.zero =
      .returned (KModInfo.zero, some "module foo not found") Handles.zero ∧
    modinfoAliasDo scenarioAllBuiltin "foo" Handles.zero =
      .returned (KModInfo.zero, some "module foo not found") Handles.zero :=
  ⟨(C6_alias_lookup_errors scenarioLookupFails "foo" Handles.zero).1 rfl,
    (C6_alias_lookup_errors scenarioNoCandidate "foo" Handles.zero).2.1 rfl,
    (C6_alias_lookup_errors scenarioAllBuiltin "foo" Handles.zero).2.2.1 [fooModule]
      (by decide) (by decide) rfl⟩

/-- C7 at a concrete stream: the key `alias` appears three times, with the
values `a`, `b`, `c`, around a well-formed `parm` record. -/
theorem C7_generic_records_accumulate_witness :
    (∀ r ∈ [("alias", "a"), ("parm", "x:d"), ("alias", "b"), ("alias", "c")],
      (r.1 = "parm" ∨ r.1 = "parmtype") → ':' ∈ r.2.data) ∧
    ∃ ret : KModInfo,
      modinfoDo
          (moduleWith "m" [("alias", "a"), ("parm", "x:d"), ("alias", "b"), ("alias", "c")])
          Handles.zero = .returned (ret, none) Handles.zero ∧
      (mapGet ret.Info "alias").getD [] = ["a", "b", "c"] ∧
      mapGet ret.Info "parm" = none ∧ mapGet ret.Info "parmtype" = none := by
  refine ⟨by decide, ?_⟩
  obtain ⟨ret, hrun, hgen, hp, hpt⟩ :=
    C7_generic_records_accumulate
      (moduleWith "m" [("alias", "a"), ("parm", "x:d"), ("alias", "b"), ("alias", "c")])
      [("alias", "a"), ("parm", "x:d"), ("alias", "b"), ("alias", "c")] Handles.zero rfl
      (by decide)
  refine ⟨ret, hrun, ?_, hp, hpt⟩
  rw [hgen "alias" (by decide) (by decide)]
  decide

/-- C9 at concrete runs: an enumeration with metadata where every lookup fails,
a path lookup that succeeds, an alias lookup that returns the filter error, and
an info read that returns an error. -/
theorem C9_handles_balanced_witness :
    (GetKModList scenarioLookupFails true Handles.zero =
        .returned ([recordOf fooModule KModInfo.zero, recordOf barModule KModInfo.zero], none)
          Handles.zero ∧
      Handles.zero = Handles.zero) ∧
    (modinfoPathDo scenario "/lib/modules/foo.ko" Handles.zero =
        .returned
          ({ Info := [("description", ["built-in networking driver"])],
             Parm := [("debug", { Desc := "enable verbose logs", Type_ := "bool" })] }, none)
          Handles.zero ∧
      Handles.zero = Handles.zero) ∧
    (modinfoAliasDo scenarioFilterFails "foo" Handles.zero =
        .returned (KModInfo.zero, some "failed to filter list") Handles.zero ∧
      Handles.zero = Handles.zero) ∧
    (modinfoDo barModule Handles.zero =
        .returned (KModInfo.zero, some "could not get modinfo: bar") Handles.zero ∧
      Handles.zero = Handles.zero) := by
  have h1 : GetKModList scenarioLookupFails true Handles.zero =
      .returned ([recordOf fooModule KModInfo.zero, recordOf barModule KModInfo.zero], none)
        Handles.zero := by decide
  have h2 : modinfoPathDo scenario "/lib/modules/foo.ko" Handles.zero =
      .returned
        ({ Info := [("description", ["built-in networking driver"])],
           Parm := [("debug", { Desc := "enable verbose logs", Type_ := "bool" })] }, none)
        Handles.zero := by decide
  have h3 : modinfoAliasDo scenarioFilterFails "foo" Handles.zero =
      .returned (KModInfo.zero, some "failed to filter list") Handles.zero := by decide
  have h4 : modinfoDo barModule Handles.zero =
      .returned (KModInfo.zero, some "could not get modinfo: bar") Handles.zero := by decide
  exact
    ⟨⟨h1, (C9_handles_balanced scenarioLookupFails Handles.zero Handles.zero).1 true _ h1⟩,
      ⟨h2, (C9_handles_balanced scenario Handles.zero Handles.zero).2.1 _ _ h2⟩,
      ⟨h3, (C9_handles_balanced scenarioFilterFails Handles.zero Handles.zero).2.2.1 _ _ h3⟩,
      ⟨h4, (C9_handles_balanced scenario Handles.zero Handles.zero).2.2.2 _ _ h4⟩⟩

/-- Three candidates for the alias `net`: the first returns an error, the second
an empty result, and the result is that of the third, `foo`. -/
theorem modinfoAliasDo_last_of_returning_example :
    modinfoAliasDo scenarioThree "net" Handles.zero =
      .returned
        ({ Info := [("description", ["built-in networking driver"])],
           Parm := [("debug", { Desc := "enable verbose logs", Type_ := "bool" })] }, none)
        Handles.zero :=
  modinfoAliasDo_last_of_returning scenarioThree "net" [barModule, moduleWith "mid" [], fooModule]
    [barModule, moduleWith "mid" []] fooModule Handles.zero Handles.zero _
    (by decide) (by decide) (by decide)
    (fun c hc => by
      rcases List.mem_cons.mp hc with h | h
      · exact ⟨(KModInfo.zero, some "could not get modinfo: bar"), Handles.zero, by
          rw [h]; decide⟩
      · rcases List.mem_cons.mp h with h | h
        · exact ⟨({ Info := [], Parm := [] }, none), Handles.zero, by rw [h]; decide⟩
        · cases h)
    (by decide)

end Gokmod
